import Mathlib

/-!
Shallow embedding of the wrestling-leaderboard pipeline from
`src/streamlittest.py` (Iowa variant, two tabs) and
`src/streamlisttest-mo.py` (Missouri variant, per-weight expanders):
loader normalization, the filter stage, per-tab sorting, rank
assignment, percentage formatting, and the display projection.

Numeric cells are modelled as exact rationals.  Python float
formatting at one and two decimals is modelled as decimal rounding
half to even over ℚ.  Nullable pandas cells are `Option` values, and
the presence of an optional column is a Boolean of the table schema.
A pandas `KeyError` (use of a missing column) is the `Except.error`
case of a pipeline step.
-/

/-! ### Loader / normalizer: `load_data`
(streamlittest.py 200-221, streamlisttest-mo.py 98-127) -/

/-- One raw CSV row as the loader sees it; only the nullable `leagues`
cell takes part in normalization. -/
structure RawRow where
  leagues : Option String
deriving DecidableEq

/-- A raw CSV table: its column names and its rows. -/
structure RawTable where
  cols : List String
  rows : List RawRow
deriving DecidableEq

/-- Python `str.strip()`: drop leading and trailing whitespace. -/
def stripStr (s : String) : String :=
  (((s.toList.dropWhile Char.isWhitespace).reverse.dropWhile Char.isWhitespace).reverse).asString

/-- `df.columns = [c.strip() for c in df.columns]` (both variants). -/
def trimmedCols (t : RawTable) : List String := t.cols.map stripStr

/-- Whether the trimmed schema has a `leagues` column. -/
def hasLeaguesB (t : RawTable) : Bool := decide ("leagues" ∈ trimmedCols t)

/-- pandas `astype(str)` on a nullable string cell: a missing value
(NaN) becomes the literal string "nan". -/
def pyStr : Option String → String
  | none => "nan"
  | some s => s

/-- `x.split(",")[0]`: the prefix of `x` before the first comma. -/
def beforeComma (s : String) : String :=
  (s.toList.takeWhile (fun c => c ≠ Char.ofNat 44)).asString

/-- `df["leagues"].astype(str).apply(lambda x: x.split(",")[0].strip())`. -/
def classifyLeagues (x : Option String) : String := stripStr (beforeComma (pyStr x))

/-- The `Classification` cell the loader derives for one row; when the
`leagues` column is absent, the whole column is the empty string. -/
def loadClassification (hasLeagues : Bool) (r : RawRow) : Option String :=
  if hasLeagues then some (classifyLeagues r.leagues) else some ""

/-- The derived `Classification` column of the loader. -/
def classificationCol (t : RawTable) : List (Option String) :=
  t.rows.map (loadClassification (hasLeaguesB t))

/-- The output schema of the loader: trimmed names, `Classification`
appended when not already present, then
`df.drop(columns=["leagues"], errors="ignore")`. -/
def loadedCols (t : RawTable) : List String :=
  (if "Classification" ∈ trimmedCols t then trimmedCols t
   else trimmedCols t ++ ["Classification"]).filter (fun c => decide (c ≠ "leagues"))

/-! ### Normalized data model for the ranking pipeline -/

/-- One normalized row.  The required metric columns are non-null; the
optional `rank`, `Win_Pct`, `global_score` cells and the
`Metro`/`Classification` cells are nullable. -/
structure Row where
  wrestler_name : String
  team_name : String
  grade : ℚ
  weight : ℚ
  Wins : ℕ
  Losses : ℕ
  Pins : ℕ
  Tech_Falls : ℕ
  Major_Decisions : ℕ
  rank : Option ℚ
  Win_Pct : Option ℚ
  global_score : Option ℚ
  Metro : Option String
  Classification : Option String
deriving DecidableEq

/-- A normalized table: which optional columns its schema has, plus
its rows. -/
structure Table where
  hasWeight : Bool
  hasRank : Bool
  hasWinPct : Bool
  hasGScore : Bool
  hasMetro : Bool
  rows : List Row
deriving DecidableEq

/-! ### Python number formatting, modelled over ℚ -/

/-- Round the fraction `n / d` (with `d > 0`) to the nearest integer,
ties to even — the rounding of Python float formatting, up to the
binary-float caveat.  `n - n.fdiv d * d` is the nonnegative remainder,
so the fractional part compares to 1/2 as `2 * rem` compares to `d`. -/
def rheNd (n d : ℤ) : ℤ :=
  if 2 * (n - n.fdiv d * d) < d then n.fdiv d
  else if d < 2 * (n - n.fdiv d * d) then n.fdiv d + 1
  else if n.fdiv d % 2 = 0 then n.fdiv d else n.fdiv d + 1

/-- One-decimal float formatting: round `q * 10 = (q.num * 10) / q.den`
half-even to an integer count of tenths, then print sign, integer
part, a dot and the tenths digit. -/
def fmt1 (q : ℚ) : String :=
  (if rheNd (q.num * 10) (q.den : ℤ) < 0 then "-" else "")
    ++ toString ((rheNd (q.num * 10) (q.den : ℤ)).natAbs / 10) ++ "."
    ++ toString ((rheNd (q.num * 10) (q.den : ℤ)).natAbs % 10)

/-- One-decimal percent formatting. -/
def fmtPct1 (q : ℚ) : String := fmt1 q ++ "%"

/-- Two-decimal float formatting: the same at hundredths. -/
def fmt2 (q : ℚ) : String :=
  (if rheNd (q.num * 100) (q.den : ℤ) < 0 then "-" else "")
    ++ toString ((rheNd (q.num * 100) (q.den : ℤ)).natAbs / 100) ++ "."
    ++ toString ((rheNd (q.num * 100) (q.den : ℤ)).natAbs / 10 % 10)
    ++ toString ((rheNd (q.num * 100) (q.den : ℤ)).natAbs % 10)

/-- The "FloWrestling Score" cell, formatted to two decimals; a NaN
score formats as the string "nan". -/
def scoreStr : Option ℚ → String
  | none => "nan"
  | some x => fmt2 x

/-- numpy `astype(int)`: truncation toward zero. -/
def ratTrunc (q : ℚ) : ℤ :=
  if 0 ≤ q.num then ((q.num.toNat / q.den : ℕ) : ℤ)
  else -((((-q.num).toNat / q.den : ℕ) : ℤ))

/-! ### Derived percentage columns
(streamlittest.py 431-452, streamlisttest-mo.py 296-318) -/

/-- `_calc_win_pct`: Win % from Wins/Losses, the em-dash sentinel on
zero matches. -/
def calc_win_pct (r : Row) : String :=
  if r.Wins + r.Losses = 0 then "—"
  else fmtPct1 ((r.Wins : ℚ) / ((r.Wins : ℚ) + (r.Losses : ℚ)) * 100)

/-- The displayed "Win %" column: when the schema has a `Win_Pct`
column it is formatted directly ("—" exactly on a null cell), else it
is computed from Wins/Losses. -/
def winDisp : Bool → Row → String
  | true, r =>
    match r.Win_Pct with
    | some x => fmtPct1 (x * 100)
    | none => "—"
  | false, r => calc_win_pct r

/-- `_calc_bonus_pct` / `calc_bonus_pct`. -/
def calc_bonus_pct (r : Row) : String :=
  if r.Wins + r.Losses = 0 then "—"
  else fmtPct1 (((r.Pins : ℚ) + (r.Tech_Falls : ℚ) + (r.Major_Decisions : ℚ))
    / ((r.Wins : ℚ) + (r.Losses : ℚ)) * 100)

/-! ### Sorting: `sort_values(...).reset_index(drop=True)` modelled as
a one-key stable sort, null keys last (`na_position="last"`). -/

/-- The three sort keys the programs use. -/
inductive SortKeySel
  | byRank
  | byWinPct
  | byGScore
deriving DecidableEq

/-- The sort key of a row under a selection: the first component 1
marks a null cell (sorted last); the second is the cell value, negated
for the descending keys. -/
def keyOf (s : SortKeySel) (r : Row) : ℚ × ℚ :=
  match s with
  | SortKeySel.byRank =>
    match r.rank with
    | none => (1, 0)
    | some v => (0, v)
  | SortKeySel.byWinPct =>
    match r.Win_Pct with
    | none => (1, 0)
    | some v => (0, -v)
  | SortKeySel.byGScore =>
    match r.global_score with
    | none => (1, 0)
    | some v => (0, -v)

/-- Boolean comparison of two rows under a key (ties compare `true`,
which keeps the insertion sort stable). -/
def rowLeB (k : Row → ℚ × ℚ) (a b : Row) : Bool :=
  if (k a).1 < (k b).1 then true
  else if (k b).1 < (k a).1 then false
  else if (k a).2 < (k b).2 then true
  else if (k b).2 < (k a).2 then false
  else true

def rowLe (k : Row → ℚ × ℚ) (a b : Row) : Prop := rowLeB k a b = true

instance rowLeDecidable (k : Row → ℚ × ℚ) : DecidableRel (rowLe k) :=
  fun a b => inferInstanceAs (Decidable (rowLeB k a b = true))

/-- One `sort_values` call on one key, as a stable sort. -/
def sortRows (k : Row → ℚ × ℚ) (rows : List Row) : List Row :=
  List.insertionSort (rowLe k) rows

/-- `df["Rank"] = df.index + 1` after `reset_index(drop=True)`:
decorate a list with positions starting at `n`. -/
def withRanks : ℕ → List Row → List (ℕ × Row)
  | _, [] => []
  | n, r :: rs => (n, r) :: withRanks (n + 1) rs

/-- A row set sorted under a key and decorated with ranks 1..N. -/
def ranked (k : Row → ℚ × ℚ) (rows : List Row) : List (ℕ × Row) :=
  withRanks 1 (sortRows k rows)

/-- The Iowa by-weight sort branch (streamlittest.py 405-413): static
`rank` ascending when the column exists, else `Win_Pct` descending,
else `global_score` descending; sorting by a missing `global_score`
column raises a `KeyError`. -/
def iowaSortW (t : Table) (rows : List Row) : Except String (List Row) :=
  if t.hasRank then Except.ok (sortRows (keyOf SortKeySel.byRank) rows)
  else if t.hasWinPct then Except.ok (sortRows (keyOf SortKeySel.byWinPct) rows)
  else if t.hasGScore then Except.ok (sortRows (keyOf SortKeySel.byGScore) rows)
  else Except.error "KeyError: global_score"

/-- The Missouri per-weight sort branch (streamlisttest-mo.py
264-269): `rank` ascending when present, else `Win_Pct` descending;
there is no `global_score` fallback. -/
def moSortW (t : Table) (rows : List Row) : Except String (List Row) :=
  if t.hasRank then Except.ok (sortRows (keyOf SortKeySel.byRank) rows)
  else if t.hasWinPct then Except.ok (sortRows (keyOf SortKeySel.byWinPct) rows)
  else Except.error "KeyError: Win_Pct"

/-- The Iowa pound-for-pound sort (streamlittest.py 340): always
`global_score` descending. -/
def p4pSortedRows (t : Table) : List Row :=
  sortRows (keyOf SortKeySel.byGScore) t.rows

/-- Modelled from the spec: the sort-key precedence of spec section
4.3 — `rank` ascending when present, else `Win_Pct` descending, else
`global_score` descending, never combined. -/
def specChoice (t : Table) : SortKeySel :=
  if t.hasRank then SortKeySel.byRank
  else if t.hasWinPct then SortKeySel.byWinPct
  else SortKeySel.byGScore

/-- Modelled from the spec: sorting with the precedence chain of the spec. -/
def specChainSort (t : Table) (rows : List Row) : List Row :=
  sortRows (keyOf (specChoice t)) rows

/-! ### Filter stage
(streamlittest.py 306-322, streamlisttest-mo.py 228-244) -/

/-- The three dropdown selections; "(All)" is the no-filter sentinel. -/
structure Selections where
  league : String
  metro : String
  grade : String
deriving DecidableEq

/-- An optional filter pass: `none` means the stage is inactive. -/
def condFilter (p : Option (Row → Bool)) (l : List Row) : List Row :=
  match p with
  | some q => l.filter q
  | none => l

/-- Classification filter: active unless "(All)"; the `Classification`
column always exists after normalization.  A null cell never matches. -/
def leaguePred (s : Selections) : Option (Row → Bool) :=
  if s.league ≠ "(All)" then some (fun r => decide (r.Classification = some s.league))
  else none

/-- Metro filter: active unless "(All)", and only when the schema has
a `Metro` column. -/
def metroPred (hasMetro : Bool) (s : Selections) : Option (Row → Bool) :=
  if s.metro ≠ "(All)" ∧ hasMetro = true then some (fun r => decide (r.Metro = some s.metro))
  else none

/-- Grade filter: active unless "(All)"; a selection that does not
parse as an integer is treated as no filter (the try/except). -/
def gradePred (s : Selections) : Option (Row → Bool) :=
  if s.grade ≠ "(All)" then
    match s.grade.toInt? with
    | some g => some (fun r => decide (r.grade = (g : ℚ)))
    | none => none
  else none

/-- The three filter passes in program order. -/
def filterRows (t : Table) (s : Selections) : List Row :=
  condFilter (gradePred s) (condFilter (metroPred t.hasMetro s) (condFilter (leaguePred s) t.rows))

/-- The whole filter stage: rows filtered, schema unchanged. -/
def applyFilters (t : Table) (s : Selections) : Table :=
  { t with rows := filterRows t s }

/-! ### Display projection -/

/-- A displayed cell. -/
inductive Cell
  | str (s : String)
  | int (i : ℤ)
  | rat (q : ℚ)
deriving DecidableEq

/-- The raw schema column names of a normalized table: the required
columns plus whichever optional ones are present (order immaterial to
the projections, which follow `desired_order`). -/
def rawColsOf (t : Table) : List String :=
  ["wrestler_name", "team_name", "grade", "Wins", "Losses", "Pins", "Tech_Falls",
    "Major_Decisions"]
  ++ (if t.hasWeight then ["weight"] else [])
  ++ (if t.hasRank then ["rank"] else [])
  ++ (if t.hasWinPct then ["Win_Pct"] else [])
  ++ (if t.hasGScore then ["global_score"] else [])
  ++ (if t.hasMetro then ["Metro"] else [])
  ++ ["Classification"]

/-- `desired_order` of the Iowa by-weight tab (streamlittest.py
456-469). -/
def iowaDesiredOrder : List String :=
  ["Rank", "FloWrestling Score", "wrestler_name", "team_name", "grade", "Wins", "Losses",
    "Win %", "Bonus Pt %", "Pins", "Tech_Falls", "Major_Decisions"]

/-- `drop_cols` of the Iowa by-weight tab (streamlittest.py 424-428). -/
def iowaDropCols : List String := ["Classification", "Metro", "rank"]

/-- Columns available on the Iowa by-weight display frame: raw columns
plus the computed `Rank` and `FloWrestling Score`, minus the dropped
ones, plus the formatted percentage columns. -/
def iowaPool (t : Table) : List String :=
  ((rawColsOf t ++ ["Rank", "FloWrestling Score"]).filter (fun c => decide (c ∉ iowaDropCols)))
  ++ ["Win %", "Bonus Pt %"]

/-- `cols_to_show = [c for c in desired_order if c in df_display.columns]`. -/
def iowaShown (t : Table) : List String :=
  iowaDesiredOrder.filter (fun c => decide (c ∈ iowaPool t))

/-- The Iowa rename map (streamlittest.py 474-482). -/
def iowaRename (c : String) : String :=
  if c = "wrestler_name" then "Wrestler Name"
  else if c = "team_name" then "Team Name"
  else if c = "grade" then "Grade"
  else if c = "Tech_Falls" then "Tech Falls"
  else if c = "Major_Decisions" then "Major Decisions"
  else c

/-- The displayed header of the Iowa by-weight table. -/
def iowaTab2Header (t : Table) : List String := (iowaShown t).map iowaRename

/-- The Iowa by-weight display cell of a ranked row in a column. -/
def iowaCellOf (t : Table) (p : ℕ × Row) (c : String) : Cell :=
  if c = "Rank" then Cell.int (p.1 : ℤ)
  else if c = "FloWrestling Score" then Cell.str (scoreStr p.2.global_score)
  else if c = "wrestler_name" then Cell.str p.2.wrestler_name
  else if c = "team_name" then Cell.str p.2.team_name
  else if c = "grade" then Cell.int (ratTrunc p.2.grade)
  else if c = "Wins" then Cell.int (p.2.Wins : ℤ)
  else if c = "Losses" then Cell.int (p.2.Losses : ℤ)
  else if c = "Win %" then Cell.str (winDisp t.hasWinPct p.2)
  else if c = "Bonus Pt %" then Cell.str (calc_bonus_pct p.2)
  else if c = "Pins" then Cell.int (p.2.Pins : ℤ)
  else if c = "Tech_Falls" then Cell.int (p.2.Tech_Falls : ℤ)
  else if c = "Major_Decisions" then Cell.int (p.2.Major_Decisions : ℤ)
  else Cell.str ""

/-- The pound-for-pound column selection (streamlittest.py 352-359),
before renaming. -/
def p4pSelectCols : List String :=
  ["P4P Rank", "FloWrestling Score", "weight", "wrestler_name", "team_name", "grade"]

/-- The pound-for-pound rename map (streamlittest.py 362-369). -/
def p4pRename (c : String) : String :=
  if c = "weight" then "Weight"
  else if c = "wrestler_name" then "Wrestler Name"
  else if c = "team_name" then "Team Name"
  else if c = "grade" then "Grade"
  else c

/-- The displayed pound-for-pound header. -/
def p4pHeader : List String := p4pSelectCols.map p4pRename

/-- The pound-for-pound display cell of a ranked row in a column. -/
def p4pCellOf (p : ℕ × Row) (c : String) : Cell :=
  if c = "P4P Rank" then Cell.int (p.1 : ℤ)
  else if c = "FloWrestling Score" then Cell.str (scoreStr p.2.global_score)
  else if c = "weight" then Cell.rat p.2.weight
  else if c = "wrestler_name" then Cell.str p.2.wrestler_name
  else if c = "team_name" then Cell.str p.2.team_name
  else if c = "grade" then Cell.int (ratTrunc p.2.grade)
  else Cell.str ""

/-- One displayed pound-for-pound row. -/
def p4pCells (p : ℕ × Row) : List Cell := p4pSelectCols.map (p4pCellOf p)

/-- `desired_order` of the Missouri variant (streamlisttest-mo.py
321-333): note there is no score column. -/
def moDesiredOrder : List String :=
  ["dynamic_rank", "wrestler_name", "team_name", "grade", "Wins", "Losses", "Win %",
    "Bonus Pt %", "Pins", "Tech_Falls", "Major_Decisions"]

/-- `drop_cols` of the Missouri variant (streamlisttest-mo.py
286-291). -/
def moDropCols : List String := ["Classification", "Metro", "rank", "Win_Pct"]

/-- Columns available on the Missouri display frame. -/
def moPool (t : Table) : List String :=
  ((rawColsOf t ++ ["dynamic_rank"]).filter (fun c => decide (c ∉ moDropCols)))
  ++ ["Win %", "Bonus Pt %"]

/-- The Missouri `cols_to_show`. -/
def moShown (t : Table) : List String :=
  moDesiredOrder.filter (fun c => decide (c ∈ moPool t))

/-- The Missouri rename map (streamlisttest-mo.py 338-352). -/
def moRename (c : String) : String :=
  if c = "dynamic_rank" then "Rank" else iowaRename c

/-- The displayed header of a Missouri weight-class table. -/
def moHeader (t : Table) : List String := (moShown t).map moRename

/-- The Missouri display cell of a ranked row in a column. -/
def moCellOf (t : Table) (p : ℕ × Row) (c : String) : Cell :=
  if c = "dynamic_rank" then Cell.int (p.1 : ℤ) else iowaCellOf t p c

/-! ### Tab pipelines -/

/-- What a tab renders: a user-visible error message, an
informational message, or a table. -/
inductive TabOut
  | errMsg (s : String)
  | info (s : String)
  | table (header : List String) (cells : List (List Cell))
deriving DecidableEq

/-- The missing-weight-column message (both variants). -/
def weightColMsg : String :=
  "Your data must include a column named weight (the weight class)."

/-- tab1, the Iowa pound-for-pound tab (streamlittest.py 334-375).  A
`KeyError` on a missing column is the `Except.error` case: the sort
needs `global_score` and the projection needs `weight`. -/
def tab1Run (t : Table) : Except String TabOut :=
  if t.rows.isEmpty then Except.ok (TabOut.info "No data available for the current filters.")
  else if t.hasGScore = false then Except.error "KeyError: global_score"
  else if t.hasWeight = false then Except.error "KeyError: weight"
  else Except.ok (TabOut.table p4pHeader ((withRanks 1 (p4pSortedRows t)).map p4pCells))

/-- `sorted(col.dropna().unique().tolist())`. -/
def sortedDistinct (l : List ℚ) : List ℚ :=
  List.insertionSort (fun a b : ℚ => a ≤ b) l.dedup

/-- tab2, the Iowa by-weight tab (streamlittest.py 381-489), for a
selected weight class `w`; the score column creation (line 419) needs
`global_score` even when the sort did not. -/
def tab2Run (t : Table) (w : ℚ) : Except String TabOut :=
  if t.hasWeight = false then Except.ok (TabOut.errMsg weightColMsg)
  else if (sortedDistinct (t.rows.map (fun r => r.weight))).isEmpty then
    Except.ok (TabOut.info "No weight-class data available for the current filters.")
  else
    let dfw := t.rows.filter (fun r => decide (r.weight = w))
    if dfw.isEmpty then
      Except.ok (TabOut.info "No wrestlers found at this weight for the current filters.")
    else
      match iowaSortW t dfw with
      | Except.error e => Except.error e
      | Except.ok sorted =>
        if t.hasGScore = false then Except.error "KeyError: global_score"
        else Except.ok (TabOut.table (iowaTab2Header t)
          ((withRanks 1 sorted).map (fun p => (iowaShown t).map (iowaCellOf t p))))

/-- The Missouri page output: `st.stop()` after the missing-weight
message, or the list of weight-class tables. -/
inductive MoOut
  | halt (s : String)
  | pages (ts : List TabOut)
deriving DecidableEq

/-- Sequence the per-weight results; the first `KeyError` aborts the
script. -/
def collectExcept : List (Except String (Option TabOut)) → Except String (List TabOut)
  | [] => Except.ok []
  | x :: xs =>
    match x with
    | Except.error e => Except.error e
    | Except.ok v =>
      match collectExcept xs with
      | Except.error e => Except.error e
      | Except.ok vs => Except.ok (v.toList ++ vs)

/-- One Missouri weight-class expander (streamlisttest-mo.py 256-362);
`none` when the subset is empty (the loop `continue`s). -/
def moWeightTable (t : Table) (w : ℚ) : Except String (Option TabOut) :=
  let dfw := t.rows.filter (fun r => decide (r.weight = w))
  if dfw.isEmpty then Except.ok none
  else
    match moSortW t dfw with
    | Except.error e => Except.error e
    | Except.ok sorted => Except.ok (some (TabOut.table (moHeader t)
        ((withRanks 1 sorted).map (fun p => (moShown t).map (moCellOf t p)))))

/-- The Missouri page (streamlisttest-mo.py 250-362): a missing
`weight` column shows the message and halts the whole script. -/
def moRun (t : Table) : Except String MoOut :=
  if t.hasWeight = false then Except.ok (MoOut.halt weightColMsg)
  else
    match collectExcept ((sortedDistinct (t.rows.map (fun r => r.weight))).map (moWeightTable t)) with
    | Except.error e => Except.error e
    | Except.ok pages => Except.ok (MoOut.pages pages)

/-- Whether a tab produced output (as opposed to an uncaught error). -/
def isOkB : Except String TabOut → Bool
  | Except.ok _ => true
  | Except.error _ => false

/-! ### Spec-side column lists for the projection claim -/

/-- Modelled from the spec: the claimed fixed display order for the
pound-for-pound mode (rank, score, name, team, grade, weight, then
the match-statistic columns), written in the display
names of the program. -/
def specP4PColsClaim : List String :=
  ["P4P Rank", "FloWrestling Score", "Wrestler Name", "Team Name", "Grade", "Weight",
    "Wins", "Losses", "Win %", "Bonus Pt %", "Pins", "Tech Falls", "Major Decisions"]

/-- Modelled from the spec: the claimed by-weight display order when a
composite score column exists. -/
def specByWeightColsClaim : List String :=
  ["Rank", "FloWrestling Score", "Wrestler Name", "Team Name", "Grade",
    "Wins", "Losses", "Win %", "Bonus Pt %", "Pins", "Tech Falls", "Major Decisions"]

/-! ### Concrete instances used by counterexamples and witnesses -/

/-- A neutral row used to build concrete instances. -/
def baseRow : Row :=
  { wrestler_name := "A", team_name := "T", grade := 9, weight := 106,
    Wins := 0, Losses := 0, Pins := 0, Tech_Falls := 0, Major_Decisions := 0,
    rank := none, Win_Pct := none, global_score := none,
    Metro := none, Classification := some "" }

def c1rowA : Row := { baseRow with wrestler_name := "A", rank := some 1, global_score := some 1 }

def c1rowB : Row := { baseRow with wrestler_name := "B", rank := some 2, global_score := some 2 }

/-- A filtered table whose schema has both `rank` and `global_score`. -/
def c1table : Table :=
  { hasWeight := true, hasRank := true, hasWinPct := false, hasGScore := true,
    hasMetro := false, rows := [c1rowA, c1rowB] }

/-- A row with zero matches but a non-null precomputed `Win_Pct`. -/
def c2nullRow : Row := { baseRow with Win_Pct := some (1/2) }

/-- The worked example row of the spec: 8-2 with 3 pins and 1 tech fall. -/
def c2row : Row := { baseRow with Wins := 8, Losses := 2, Pins := 3, Tech_Falls := 1 }

def c3rowA : Row := { baseRow with wrestler_name := "A", global_score := some 5 }

def c3rowB : Row := { baseRow with wrestler_name := "B", global_score := some 7 }

/-- A table whose schema lacks the `weight` column. -/
def c5table : Table :=
  { hasWeight := false, hasRank := false, hasWinPct := false, hasGScore := true,
    hasMetro := false, rows := [{ baseRow with global_score := some 3 }] }

/-- A table with every optional column present. -/
def c6moTable : Table :=
  { hasWeight := true, hasRank := true, hasWinPct := true, hasGScore := true,
    hasMetro := true, rows := [] }

def c6gradeRow : Row := { baseRow with grade := 9 }

def c7row : Row := { baseRow with Wins := 8, Losses := 2, Pins := 3, Tech_Falls := 1 }

/-- A raw table with an untrimmed `leagues` column name. -/
def c8raw : RawTable :=
  { cols := [" leagues", "weight"], rows := [{ leagues := some "Class 1A, Zinc County" }] }

def c10row : RawRow := { leagues := none }

/-! ### Helper lemmas -/

theorem fmt1_length_pos (q : ℚ) : 1 ≤ (fmt1 q).length := by
  have hdot : ("." : String).length = 1 := rfl
  unfold fmt1
  rw [String.length_append, String.length_append, String.length_append]
  omega

theorem fmtPct1_ne_dash (q : ℚ) : fmtPct1 q ≠ "—" := by
  intro h
  have h1 : (fmtPct1 q).length = ("—" : String).length := by rw [h]
  have h2 : ("—" : String).length = 1 := rfl
  have h3 : ("%" : String).length = 1 := rfl
  have h4 := fmt1_length_pos q
  unfold fmtPct1 at h1
  rw [String.length_append] at h1
  omega

theorem withRanks_map_fst (n : ℕ) (l : List Row) :
    (withRanks n l).map Prod.fst = List.range' n l.length := by
  induction l generalizing n with
  | nil => rfl
  | cons r rs ih =>
    simp only [withRanks, List.map_cons, List.length_cons, List.range'_succ]
    rw [ih]

theorem sortRows_length (k : Row → ℚ × ℚ) (rows : List Row) :
    (sortRows k rows).length = rows.length :=
  List.length_insertionSort (rowLe k) rows

theorem condFilter_subset (p : Option (Row → Bool)) (l : List Row) :
    ∀ x ∈ condFilter p l, x ∈ l := by
  intro x hx
  cases p with
  | none => exact hx
  | some q => exact List.mem_of_mem_filter hx

theorem condFilter_sat (q : Row → Bool) (l : List Row) :
    ∀ x ∈ condFilter (some q) l, q x = true := by
  intro x hx
  exact (List.mem_filter.mp hx).2

theorem condFilter_eq_self (p : Option (Row → Bool)) (l : List Row)
    (h : ∀ x ∈ l, ∀ q, p = some q → q x = true) : condFilter p l = l := by
  cases p with
  | none => rfl
  | some q => exact List.filter_eq_self.mpr (fun a ha => h a ha q rfl)

theorem filterRows_twice (t : Table) (s : Selections) :
    filterRows (applyFilters t s) s = filterRows t s := by
  have hrows : (applyFilters t s).rows =
      condFilter (gradePred s)
        (condFilter (metroPred t.hasMetro s) (condFilter (leaguePred s) t.rows)) := rfl
  have hm : (applyFilters t s).hasMetro = t.hasMetro := rfl
  unfold filterRows
  rw [hm, hrows]
  set l1 := condFilter (leaguePred s) t.rows with hl1
  set l2 := condFilter (metroPred t.hasMetro s) l1 with hl2
  set l3 := condFilter (gradePred s) l2 with hl3
  have hL : condFilter (leaguePred s) l3 = l3 := by
    apply condFilter_eq_self
    intro x hx q hq
    have hx2 : x ∈ l2 := condFilter_subset _ _ x hx
    have hx1 : x ∈ l1 := condFilter_subset _ _ x hx2
    rw [hl1, hq] at hx1
    exact condFilter_sat q t.rows x hx1
  rw [hL]
  have hM : condFilter (metroPred t.hasMetro s) l3 = l3 := by
    apply condFilter_eq_self
    intro x hx q hq
    have hx2 : x ∈ l2 := condFilter_subset _ _ x hx
    rw [hl2, hq] at hx2
    exact condFilter_sat q l1 x hx2
  rw [hM]
  apply condFilter_eq_self
  intro x hx q hq
  rw [hl3, hq] at hx
  exact condFilter_sat q l2 x hx

theorem ratTrunc_intCast (g : ℤ) : ratTrunc ((g : ℚ)) = g := by
  unfold ratTrunc
  rw [Rat.intCast_num, Rat.intCast_den]
  by_cases h : 0 ≤ g
  · rw [if_pos h]
    simp [Int.toNat_of_nonneg h]
  · rw [if_neg h]
    simp only [Nat.div_one]
    omega

theorem mem_rawColsOf_base (t : Table) (c : String)
    (h : c ∈ ["wrestler_name", "team_name", "grade", "Wins", "Losses", "Pins", "Tech_Falls",
      "Major_Decisions"]) :
    c ∈ rawColsOf t := by
  unfold rawColsOf
  exact List.mem_append_left _ (List.mem_append_left _ (List.mem_append_left _
    (List.mem_append_left _ (List.mem_append_left _ (List.mem_append_left _ h)))))

theorem mem_iowaPool_of_kept (t : Table) (c : String)
    (hbase : c ∈ rawColsOf t ++ ["Rank", "FloWrestling Score"])
    (hdrop : decide (c ∉ iowaDropCols) = true) : c ∈ iowaPool t :=
  List.mem_append_left _ (List.mem_filter.mpr ⟨hbase, hdrop⟩)

theorem mem_iowaPool_pct (t : Table) (c : String) (h : c ∈ ["Win %", "Bonus Pt %"]) :
    c ∈ iowaPool t :=
  List.mem_append_right _ h

theorem iowaShown_eq (t : Table) : iowaShown t = iowaDesiredOrder := by
  unfold iowaShown
  apply List.filter_eq_self.mpr
  intro c hc
  fin_cases hc <;>
    first
      | exact decide_eq_true (mem_iowaPool_pct t _ (by decide))
      | exact decide_eq_true
          (mem_iowaPool_of_kept t _ (List.mem_append_right _ (by decide)) (by decide))
      | exact decide_eq_true
          (mem_iowaPool_of_kept t _ (List.mem_append_left _ (mem_rawColsOf_base t _ (by decide)))
            (by decide))

theorem mem_moPool_of_kept (t : Table) (c : String)
    (hbase : c ∈ rawColsOf t ++ ["dynamic_rank"])
    (hdrop : decide (c ∉ moDropCols) = true) : c ∈ moPool t :=
  List.mem_append_left _ (List.mem_filter.mpr ⟨hbase, hdrop⟩)

theorem mem_moPool_pct (t : Table) (c : String) (h : c ∈ ["Win %", "Bonus Pt %"]) :
    c ∈ moPool t :=
  List.mem_append_right _ h

theorem moShown_eq (t : Table) : moShown t = moDesiredOrder := by
  unfold moShown
  apply List.filter_eq_self.mpr
  intro c hc
  fin_cases hc <;>
    first
      | exact decide_eq_true (mem_moPool_pct t _ (by decide))
      | exact decide_eq_true
          (mem_moPool_of_kept t _ (List.mem_append_right _ (by decide)) (by decide))
      | exact decide_eq_true
          (mem_moPool_of_kept t _ (List.mem_append_left _ (mem_rawColsOf_base t _ (by decide)))
            (by decide))

/-! ### Claim theorems -/

/-- Claim C1, counterexample: on a table whose schema has a static
`rank` column, the pound-for-pound sort does not follow the claimed
precedence (which would sort ascending by `rank`); it sorts by
`global_score` descending. -/
theorem c1_sort_precedence_counterexample :
    p4pSortedRows c1table ≠ specChainSort c1table c1table.rows := by decide

/-- Claim C1, amended: the by-weight sort of the Iowa variant follows
the precedence chain `rank` asc, else `Win_Pct` desc, else
`global_score` desc, one key at a time; the pound-for-pound sort
always uses `global_score` descending; the Missouri per-weight sort
falls back only from `rank` to `Win_Pct`. -/
theorem c1_sort_precedence_amended (t : Table) (rows : List Row) :
    iowaSortW t rows =
      (if t.hasRank || t.hasWinPct || t.hasGScore then Except.ok (specChainSort t rows)
       else Except.error "KeyError: global_score")
    ∧ p4pSortedRows t = sortRows (keyOf SortKeySel.byGScore) t.rows
    ∧ moSortW t rows =
      (if t.hasRank then Except.ok (sortRows (keyOf SortKeySel.byRank) rows)
       else if t.hasWinPct then Except.ok (sortRows (keyOf SortKeySel.byWinPct) rows)
       else Except.error "KeyError: Win_Pct") := by
  refine ⟨?_, rfl, ?_⟩
  · cases hr : t.hasRank <;> cases hwp : t.hasWinPct <;> cases hg : t.hasGScore <;>
      simp [iowaSortW, specChainSort, specChoice, hr, hwp, hg]
  · cases hr : t.hasRank <;> cases hwp : t.hasWinPct <;> simp [moSortW, hr, hwp]

/-- Claim C2, counterexample: with a `Win_Pct` column present, a row
with Wins+Losses = 0 but a non-null `Win_Pct` cell does not display
the em-dash sentinel, refuting the claimed equivalence. -/
theorem c2_win_pct_counterexample :
    winDisp true c2nullRow ≠ "—" ∧ c2nullRow.Wins + c2nullRow.Losses = 0 := by
  constructor
  · show fmtPct1 ((1/2 : ℚ) * 100) ≠ "—"
    exact fmtPct1_ne_dash _
  · rfl

/-- Claim C2, amended: when the data has no `Win_Pct` column, Win %
is the em dash iff Wins+Losses = 0 and otherwise
Wins/(Wins+Losses)*100 formatted to one decimal with a trailing
percent sign; when `Win_Pct` is present, Win % is the em dash iff the
cell is null and otherwise `Win_Pct`*100 formatted the same way. -/
theorem c2_win_pct_amended (b : Bool) (r : Row) :
    (b = false → ((winDisp b r = "—") ↔ r.Wins + r.Losses = 0))
    ∧ (b = false → r.Wins + r.Losses ≠ 0 →
        winDisp b r = fmtPct1 ((r.Wins : ℚ) / ((r.Wins : ℚ) + (r.Losses : ℚ)) * 100))
    ∧ (b = true → ((winDisp b r = "—") ↔ r.Win_Pct = none))
    ∧ (b = true → ∀ x : ℚ, r.Win_Pct = some x → winDisp b r = fmtPct1 (x * 100)) := by
  refine ⟨?_, ?_, ?_, ?_⟩
  · intro hb
    subst hb
    show calc_win_pct r = "—" ↔ r.Wins + r.Losses = 0
    constructor
    · intro h
      by_contra hne
      unfold calc_win_pct at h
      rw [if_neg hne] at h
      exact fmtPct1_ne_dash _ h
    · intro h
      unfold calc_win_pct
      rw [if_pos h]
  · intro hb hne
    subst hb
    show calc_win_pct r = _
    unfold calc_win_pct
    rw [if_neg hne]
  · intro hb
    subst hb
    cases hx : r.Win_Pct with
    | none => simp [winDisp, hx]
    | some x =>
      simp only [winDisp, hx]
      constructor
      · intro h
        exact absurd h (fmtPct1_ne_dash _)
      · intro h
        exact Option.noConfusion h
  · intro hb x hx
    subst hb
    simp [winDisp, hx]

/-- Claim C2, witness at the 8-2 example row of the spec. -/
theorem c2_win_pct_amended_witness :
    c2row.Wins + c2row.Losses ≠ 0
    ∧ winDisp false c2row =
        fmtPct1 ((c2row.Wins : ℚ) / ((c2row.Wins : ℚ) + (c2row.Losses : ℚ)) * 100) :=
  ⟨by decide, (c2_win_pct_amended false c2row).2.1 rfl (by decide)⟩

/-- Claim C3: ranking any row set under any sort key assigns exactly
the ranks 1..N in order, with no gaps and no duplicates. -/
theorem c3_ranks_exact (k : Row → ℚ × ℚ) (rows : List Row) :
    (ranked k rows).map Prod.fst = List.range' 1 rows.length := by
  unfold ranked
  rw [withRanks_map_fst, sortRows_length]

/-- Claim C5, counterexample: with the `weight` column absent and a
non-empty row set, the pound-for-pound tab does not render its table —
its projection raises a KeyError — while the by-weight tab shows its
message. -/
theorem c5_missing_weight_counterexample :
    tab1Run c5table = Except.error "KeyError: weight"
    ∧ tab2Run c5table 0 = Except.ok (TabOut.errMsg weightColMsg) := ⟨rfl, rfl⟩

/-- Claim C5, amended: when `weight` is absent the by-weight tab shows
a user-visible message and renders no table; the pound-for-pound tab
fails on any non-empty row set instead of rendering (its projection
selects the weight column); the Missouri script halts entirely. -/
theorem c5_missing_weight_amended (t : Table) (h : t.hasWeight = false) :
    (∀ w : ℚ, tab2Run t w = Except.ok (TabOut.errMsg weightColMsg))
    ∧ (t.rows.isEmpty = false → isOkB (tab1Run t) = false)
    ∧ moRun t = Except.ok (MoOut.halt weightColMsg) := by
  refine ⟨?_, ?_, ?_⟩
  · intro w
    unfold tab2Run
    rw [h]
    rfl
  · intro he
    cases hg : t.hasGScore <;> simp [tab1Run, he, h, hg, isOkB]
  · unfold moRun
    rw [h]
    rfl

/-- Claim C5, witness at a concrete weight-less table. -/
theorem c5_missing_weight_amended_witness :
    tab2Run c5table 106 = Except.ok (TabOut.errMsg weightColMsg)
    ∧ isOkB (tab1Run c5table) = false
    ∧ moRun c5table = Except.ok (MoOut.halt weightColMsg) := by
  obtain ⟨h1, h2, h3⟩ := c5_missing_weight_amended c5table rfl
  exact ⟨h1 106, h2 rfl, h3⟩

/-- Claim C6, counterexample: the pound-for-pound projection is not
the claimed fixed list (weight sits third and the match-statistic
columns are absent), and the Missouri by-weight projection omits the
composite score even when a `global_score` column exists. -/
theorem c6_projection_counterexample :
    p4pHeader ≠ specP4PColsClaim ∧ moHeader c6moTable ≠ specByWeightColsClaim := by
  constructor <;> decide

/-- Claim C6, amended: the exact projections are — pound-for-pound:
rank, score, weight, name, team, grade; Iowa by-weight: rank, score,
name, team, grade, wins, losses, win %, bonus %, pins, tech falls,
major decisions; Missouri by-weight: the same minus the score column —
with the displayed grade coerced to a whole number. -/
theorem c6_projection_amended (t : Table) (p : ℕ × Row) (g : ℤ) :
    p4pHeader = ["P4P Rank", "FloWrestling Score", "Weight", "Wrestler Name", "Team Name",
      "Grade"]
    ∧ iowaTab2Header t = ["Rank", "FloWrestling Score", "Wrestler Name", "Team Name", "Grade",
        "Wins", "Losses", "Win %", "Bonus Pt %", "Pins", "Tech Falls", "Major Decisions"]
    ∧ moHeader t = ["Rank", "Wrestler Name", "Team Name", "Grade", "Wins", "Losses", "Win %",
        "Bonus Pt %", "Pins", "Tech Falls", "Major Decisions"]
    ∧ (p.2.grade = (g : ℚ) →
        iowaCellOf t p "grade" = Cell.int g
        ∧ moCellOf t p "grade" = Cell.int g
        ∧ p4pCellOf p "grade" = Cell.int g) := by
  refine ⟨rfl, ?_, ?_, ?_⟩
  · unfold iowaTab2Header
    rw [iowaShown_eq]
    decide
  · unfold moHeader
    rw [moShown_eq]
    decide
  · intro hgr
    have h1 : iowaCellOf t p "grade" = Cell.int (ratTrunc p.2.grade) := rfl
    have h2 : moCellOf t p "grade" = Cell.int (ratTrunc p.2.grade) := rfl
    have h3 : p4pCellOf p "grade" = Cell.int (ratTrunc p.2.grade) := rfl
    rw [hgr, ratTrunc_intCast] at h1 h2 h3
    exact ⟨h1, h2, h3⟩

/-- Claim C6, witness: a stored whole-number grade displays as that
integer. -/
theorem c6_projection_amended_witness :
    c6gradeRow.grade = ((9 : ℤ) : ℚ)
    ∧ iowaCellOf c6moTable (1, c6gradeRow) "grade" = Cell.int 9 := by
  refine ⟨by decide, ?_⟩
  exact ((c6_projection_amended c6moTable (1, c6gradeRow) 9).2.2.2 (by decide)).1

/-- Claim C7: the Bonus Pt % field is the em dash iff Wins+Losses = 0,
and otherwise (Pins+TechFalls+MajorDecisions)/(Wins+Losses)*100
formatted to one decimal with a trailing percent sign. -/
theorem c7_bonus_pct_formula (r : Row) :
    ((calc_bonus_pct r = "—") ↔ r.Wins + r.Losses = 0)
    ∧ (r.Wins + r.Losses ≠ 0 →
      calc_bonus_pct r =
        fmtPct1 (((r.Pins : ℚ) + (r.Tech_Falls : ℚ) + (r.Major_Decisions : ℚ))
          / ((r.Wins : ℚ) + (r.Losses : ℚ)) * 100)) := by
  constructor
  · constructor
    · intro h
      by_contra hne
      unfold calc_bonus_pct at h
      rw [if_neg hne] at h
      exact fmtPct1_ne_dash _ h
    · intro h
      unfold calc_bonus_pct
      rw [if_pos h]
  · intro h
    unfold calc_bonus_pct
    rw [if_neg h]

/-- Claim C7, witness at the 8-2 example row of the spec. -/
theorem c7_bonus_pct_formula_witness :
    c7row.Wins + c7row.Losses ≠ 0
    ∧ calc_bonus_pct c7row =
        fmtPct1 (((c7row.Pins : ℚ) + (c7row.Tech_Falls : ℚ) + (c7row.Major_Decisions : ℚ))
          / ((c7row.Wins : ℚ) + (c7row.Losses : ℚ)) * 100) :=
  ⟨by decide, (c7_bonus_pct_formula c7row).2 (by decide)⟩

/-- Claim C8: after normalization, every Classification cell is
non-null and the `leagues` column is not in the output schema. -/
theorem c8_classification_never_null (t : RawTable) :
    "leagues" ∉ loadedCols t ∧ ∀ c ∈ classificationCol t, c.isSome = true := by
  constructor
  · intro hmem
    have h2 := (List.mem_filter.mp hmem).2
    simp at h2
  · intro c hc
    unfold classificationCol at hc
    obtain ⟨r, hr, hrc⟩ := List.mem_map.mp hc
    rw [← hrc]
    unfold loadClassification
    cases hL : hasLeaguesB t <;> simp [hL]

/-- Claim C8, witness at a concrete raw table. -/
theorem c8_classification_never_null_witness :
    "leagues" ∉ loadedCols c8raw ∧ ∀ c ∈ classificationCol c8raw, c.isSome = true :=
  c8_classification_never_null c8raw

/-- Claim C9: running the filter stage twice with the same selections
yields exactly the row set of running it once. -/
theorem c9_filter_idempotent (t : Table) (s : Selections) :
    applyFilters (applyFilters t s) s = applyFilters t s := by
  cases t with
  | mk hw hr hwp hg hm rows =>
    exact congrArg (Table.mk hw hr hwp hg hm)
      (filterRows_twice (Table.mk hw hr hwp hg hm rows) s)

/-- Claim C10: a null `leagues` cell under a present `leagues` column
derives Classification "nan"; an absent `leagues` column derives the
empty string. -/
theorem c10_null_leagues_nan (r : RawRow) (h : r.leagues = none) :
    loadClassification true r = some "nan" ∧ loadClassification false r = some "" := by
  constructor
  · show some (classifyLeagues r.leagues) = some "nan"
    rw [h]
    decide
  · rfl

/-- Claim C10, witness at a concrete null-leagues row. -/
theorem c10_null_leagues_nan_witness :
    c10row.leagues = none ∧ loadClassification true c10row = some "nan" :=
  ⟨rfl, (c10_null_leagues_nan c10row rfl).1⟩

/-! ### Worked examples from the spec, section 8 -/

/-- An 8-2 row with 3 pins and 1 tech fall displays Win % "80.0%". -/
theorem win_pct_spec_example : calc_win_pct c2row = "80.0%" := by
  have harg : ((c2row.Wins : ℚ) / ((c2row.Wins : ℚ) + (c2row.Losses : ℚ)) * 100) = 80 := by
    norm_num [c2row, baseRow]
  have h : calc_win_pct c2row =
      fmtPct1 ((c2row.Wins : ℚ) / ((c2row.Wins : ℚ) + (c2row.Losses : ℚ)) * 100) := by
    unfold calc_win_pct
    rw [if_neg (by decide)]
  rw [h, harg]
  decide

/-- The same row displays Bonus Pt % "40.0%". -/
theorem bonus_pct_spec_example : calc_bonus_pct c2row = "40.0%" := by
  have harg : (((c2row.Pins : ℚ) + (c2row.Tech_Falls : ℚ) + (c2row.Major_Decisions : ℚ))
      / ((c2row.Wins : ℚ) + (c2row.Losses : ℚ)) * 100) = 40 := by
    norm_num [c2row, baseRow]
  have h : calc_bonus_pct c2row =
      fmtPct1 (((c2row.Pins : ℚ) + (c2row.Tech_Falls : ℚ) + (c2row.Major_Decisions : ℚ))
        / ((c2row.Wins : ℚ) + (c2row.Losses : ℚ)) * 100) := by
    unfold calc_bonus_pct
    rw [if_neg (by decide)]
  rw [h, harg]
  decide

/-- A 0-0 row displays the em dash for both percentages. -/
theorem zero_match_spec_example : calc_win_pct baseRow = "—" ∧ calc_bonus_pct baseRow = "—" :=
  ⟨rfl, rfl⟩

/-- The league string "Class 1A, Zinc County" classifies as "Class 1A". -/
theorem classification_spec_example :
    classifyLeagues (some "Class 1A, Zinc County") = "Class 1A" := by decide

/-- Ranking two rows by score yields ranks [1, 2]. -/
theorem ranked_spec_example :
    (ranked (keyOf SortKeySel.byGScore) [c3rowA, c3rowB]).map Prod.fst = [1, 2] := by decide
